import Mathlib

/-!
Shallow embedding of `src/app.py` (a Streamlit + pandas dashboard backed by
two Postgres tables) and proofs about its data-table operations.

Grid cells are heterogeneous, loosely typed values (pandas object cells); a
data frame is a list of column names plus a list of rows, each row a list of
cells.  The pandas cell-level primitives used by the app (`astype(str)`,
`fillna`, `pd.to_datetime(errors="coerce")`,
`pd.to_numeric(errors="coerce")`, `astype(int)`, `.str.lower()`) are embedded
as total functions on cells; the database is embedded as a pair of stored
frames, with `to_sql(..., if_exists="replace")` storing the frame as-is and
`read_sql` returning the stored frame.
-/

set_option autoImplicit false

namespace App

/-- A grid/dataframe cell: tagged variant for pandas object cells.
`vNull` stands for the missing values NaN / None / NaT. -/
inductive Value where
  | vStr (s : String)
  | vInt (n : Int)
  | vFloat (q : Rat)
  | vDate (d : Int)
  | vNull
deriving DecidableEq, Repr

/-- A dataframe: column names and rows of cells. -/
structure DF where
  cols : List String
  rows : List (List Value)
deriving DecidableEq, Repr

/-- Well-formedness: every row has exactly one cell per column. -/
def DF.WF (df : DF) : Prop :=
  ∀ r ∈ df.rows, r.length = df.cols.length

/-- Cell of a row at a column position (missing positions read as null). -/
def nthVal (r : List Value) (i : Nat) : Value :=
  r.getD i .vNull

/-- Row of a frame at a position (missing positions read as the empty row). -/
def nthRow (df : DF) (k : Nat) : List Value :=
  df.rows.getD k []

/-- Replace the cell at position `i` of a row (no-op when out of range),
embedding a positional pandas column assignment on one row. -/
def setNth : List Value → Nat → Value → List Value
  | [], _, _ => []
  | _ :: xs, 0, v => v :: xs
  | x :: xs, n + 1, v => x :: setNth xs n v

/-- Position of the first occurrence of a column name, as pandas column
indexing resolves a label. -/
def idxOf : List String → String → Option Nat
  | [], _ => none
  | c :: cs, x => if c = x then some 0 else (idxOf cs x).map (· + 1)

/-! ### List-level lemmas -/

theorem length_setNth (l : List Value) (i : Nat) (v : Value) :
    (setNth l i v).length = l.length := by
  induction l generalizing i with
  | nil => rfl
  | cons x xs ih =>
    cases i with
    | zero => rfl
    | succ n => simp [setNth, ih]

theorem nthVal_setNth_self (l : List Value) (i : Nat) (v : Value)
    (h : i < l.length) : nthVal (setNth l i v) i = v := by
  induction l generalizing i with
  | nil => exact absurd h (by simp)
  | cons x xs ih =>
    cases i with
    | zero => rfl
    | succ n =>
      simp only [setNth, nthVal, List.getD]
      exact ih n (by simpa using h)

theorem nthVal_setNth_ne (l : List Value) (i j : Nat) (v : Value)
    (h : j ≠ i) : nthVal (setNth l i v) j = nthVal l j := by
  induction l generalizing i j with
  | nil => cases i <;> rfl
  | cons x xs ih =>
    cases i with
    | zero =>
      cases j with
      | zero => exact absurd rfl h
      | succ m => rfl
    | succ n =>
      cases j with
      | zero => rfl
      | succ m =>
        simp only [setNth, nthVal, List.getD]
        exact ih n m (fun hc => h (by rw [hc]))

theorem getD_map_lt {α β : Type} (f : α → β) (l : List α) (k : Nat)
    (d : α) (d' : β) (h : k < l.length) :
    (l.map f).getD k d' = f (l.getD k d) := by
  induction l generalizing k with
  | nil => exact absurd h (by simp)
  | cons x xs ih =>
    cases k with
    | zero => rfl
    | succ n => exact ih n (by simpa using h)

theorem getD_mem {α : Type} (l : List α) (k : Nat) (d : α)
    (h : k < l.length) : l.getD k d ∈ l := by
  induction l generalizing k with
  | nil => exact absurd h (by simp)
  | cons x xs ih =>
    cases k with
    | zero => exact List.mem_cons_self _ _
    | succ n => exact List.mem_cons_of_mem _ (ih n (by simpa using h))

theorem nthVal_append_lt (r t : List Value) (i : Nat) (h : i < r.length) :
    nthVal (r ++ t) i = nthVal r i := by
  induction r generalizing i with
  | nil => exact absurd h (by simp)
  | cons x xs ih =>
    cases i with
    | zero => rfl
    | succ n =>
      simp only [nthVal, List.cons_append, List.getD]
      exact ih n (by simpa using h)

theorem nthVal_append_self (r : List Value) (v : Value) :
    nthVal (r ++ [v]) r.length = v := by
  induction r with
  | nil => rfl
  | cons x xs ih => simp only [List.cons_append, List.length_cons, nthVal, List.getD]; exact ih

theorem idxOf_some_lt (l : List String) (c : String) (i : Nat)
    (h : idxOf l c = some i) : i < l.length := by
  induction l generalizing i with
  | nil => exact absurd h (by simp [idxOf])
  | cons x xs ih =>
    by_cases hx : x = c
    · simp [idxOf, hx] at h
      subst h
      simp
    · simp only [idxOf, if_neg hx, Option.map_eq_some'] at h
      obtain ⟨j, hj, rfl⟩ := h
      have := ih j hj
      simp only [List.length_cons]
      omega

theorem idxOf_getD (l : List String) (c : String) (i : Nat)
    (h : idxOf l c = some i) : l.getD i "" = c := by
  induction l generalizing i with
  | nil => exact absurd h (by simp [idxOf])
  | cons x xs ih =>
    by_cases hx : x = c
    · simp [idxOf, hx] at h
      subst h
      simpa using hx
    · simp only [idxOf, if_neg hx, Option.map_eq_some'] at h
      obtain ⟨j, hj, rfl⟩ := h
      simpa [List.getD] using ih j hj

theorem idxOf_none_iff (l : List String) (c : String) :
    idxOf l c = none ↔ c ∉ l := by
  induction l with
  | nil => simp [idxOf]
  | cons x xs ih =>
    by_cases hx : x = c
    · simp [idxOf, hx]
    · simp [idxOf, hx, ih, Ne.symm hx]

theorem idxOf_isSome_of_mem (l : List String) (c : String) (h : c ∈ l) :
    ∃ i, idxOf l c = some i := by
  cases hi : idxOf l c with
  | none => exact absurd ((idxOf_none_iff l c).mp hi) (by simp [h])
  | some i => exact ⟨i, rfl⟩

theorem idxOf_of_nodup_getD (l : List String) (i : Nat)
    (hnd : l.Nodup) (hi : i < l.length) : idxOf l (l.getD i "") = some i := by
  induction l generalizing i with
  | nil => exact absurd hi (by simp)
  | cons x xs ih =>
    cases i with
    | zero => simp [idxOf, List.getD]
    | succ n =>
      have hn : n < xs.length := by simpa using hi
      have hmem : xs.getD n "" ∈ xs := getD_mem xs n "" hn
      have hx : x ≠ xs.getD n "" := by
        intro hc
        exact (List.nodup_cons.mp hnd).1 (hc ▸ hmem)
      simp only [List.getD_cons_succ, idxOf, if_neg hx]
      rw [ih n (List.nodup_cons.mp hnd).2 hn]
      rfl

/-! ### Character/string helpers

The Python/pandas string operations the app uses (`str.strip`, `str.lower`,
`str.isdigit`, numeric and date parsing) are embedded over `List Char` so
that every definition is structural and evaluates in the kernel.  The model
covers the ASCII behaviour of these operations. -/

/-- Whitespace characters recognised by `str.strip` (ASCII subset). -/
def isSpaceCh (c : Char) : Bool :=
  c = ' ' || c = '\t' || c = '\n' || c = '\r'

/-- Python `str.strip()` / pandas `.str.strip()`: trim whitespace at both
ends. -/
def strStrip (s : String) : String :=
  ⟨(((s.data.dropWhile isSpaceCh).reverse.dropWhile isSpaceCh).reverse)⟩

/-- ASCII lower-casing of one character, as `str.lower` acts on ASCII. -/
def lowerCh (c : Char) : Char :=
  if 'A' ≤ c ∧ c ≤ 'Z' then Char.ofNat (c.toNat + 32) else c

/-- Python `str.lower()` (ASCII behaviour). -/
def strLower (s : String) : String :=
  ⟨s.data.map lowerCh⟩

/-- Python `str.isdigit()` (ASCII digits): nonempty and all digits. -/
def isDigitStr (s : String) : Bool :=
  !s.data.isEmpty && s.data.all Char.isDigit

/-- Value of a digit string, as Python `int(...)` reads one. -/
def digitsVal (cs : List Char) : Nat :=
  cs.foldl (fun n c => n * 10 + (c.toNat - 48)) 0

/-- Parse a nonempty all-digit character list, else fail. -/
def digitsToNat (cs : List Char) : Option Nat :=
  if cs.isEmpty then none
  else if cs.all Char.isDigit then some (digitsVal cs) else none

/-- Split a character list at every `'.'` (for decimal-point parsing). -/
def splitDot : List Char → List (List Char)
  | [] => [[]]
  | c :: cs =>
    if c = '.' then [] :: splitDot cs
    else
      match splitDot cs with
      | [] => [[c]]
      | h :: t => (c :: h) :: t

/-- Unsigned part of the numeric parse: decimal digits with at most one
decimal point.  Integral spellings give `vInt`, fractional ones `vFloat`. -/
def parseNumCore (sgn : Int) (body : List Char) : Option Value :=
  match splitDot body with
  | [ip] => (digitsToNat ip).map (fun n => .vInt (sgn * n))
  | [ip, fp] =>
    if ip.isEmpty && fp.isEmpty then none
    else if ip.all Char.isDigit && fp.all Char.isDigit then
      some (.vFloat ((sgn : Rat) *
        mkRat (digitsVal ip * 10 ^ fp.length + digitsVal fp) (10 ^ fp.length)))
    else none
  | _ => none

/-- Modelled subset of the numeric strings `pd.to_numeric` accepts: optional
sign, then decimal digits with at most one decimal point (scientific
notation, underscores and other exotic spellings are out of the model's
scope). -/
def parseNumStr (s : String) : Option Value :=
  match (strStrip s).data with
  | '-' :: rest => parseNumCore (-1) rest
  | '+' :: rest => parseNumCore 1 rest
  | l => parseNumCore 1 l

/-- Modelled subset of the date strings `pd.to_datetime` accepts: ISO
`YYYY-MM-DD`, encoded as the integer `y*10000 + m*100 + d` (the embedding
only needs date identity, not calendar arithmetic). -/
def parseDateStr (s : String) : Option Int :=
  match (strStrip s).data.splitOn '-' with
  | [y, m, d] =>
    match digitsToNat y, digitsToNat m, digitsToNat d with
    | some yn, some mn, some dn =>
      if 1 ≤ mn ∧ mn ≤ 12 ∧ 1 ≤ dn ∧ dn ≤ 31 then
        some ((yn : Int) * 10000 + mn * 100 + dn)
      else none
    | _, _, _ => none
  | _ => none

/-! ### Pandas cell-level primitives -/

/-- Embeds `astype(str)` on one cell.  Pandas stringifies missing values instead of
keeping them missing: `None` becomes the string `"None"` (an all-NaN float
column would give `"nan"`); either way the result is a non-null string. -/
def pyAstypeStr : Value → Value
  | .vStr s => .vStr s
  | .vInt n => .vStr (toString n)
  | .vFloat q => .vStr (toString q)
  | .vDate d => .vStr (toString d)
  | .vNull => .vStr "None"

/-- Embeds `fillna(d)` on one cell. -/
def pyFillna (d : Value) (v : Value) : Value :=
  if v = .vNull then d else v

/-- Embeds `.str.lower()` on one cell: lower-cases strings, gives NaN on
non-strings. -/
def pyStrLower : Value → Value
  | .vStr s => .vStr (strLower s)
  | _ => .vNull

/-- Embeds `pd.to_datetime(x, errors="coerce")` on one cell: dates pass through,
strings are parsed (unparsable ones coerce to NaT), numbers are epoch
offsets, everything else coerces to NaT. -/
def pyToDatetime : Value → Value
  | .vDate d => .vDate d
  | .vStr s =>
    match parseDateStr s with
    | some d => .vDate d
    | none => .vNull
  | .vInt n => .vDate n
  | .vFloat _ => .vNull
  | .vNull => .vNull

/-- Embeds `pd.to_numeric(x, errors="coerce")` on one cell: numbers pass through,
strings are parsed (unparsable ones coerce to NaN), everything else coerces
to NaN. -/
def pyToNumeric : Value → Value
  | .vInt n => .vInt n
  | .vFloat q => .vFloat q
  | .vStr s =>
    match parseNumStr s with
    | some v => v
    | none => .vNull
  | .vDate _ => .vNull
  | .vNull => .vNull

/-- Truncation toward zero, as numpy `astype(int)` truncates floats. -/
def ratTruncInt (q : Rat) : Int :=
  if 0 ≤ q.num then ((q.num.toNat / q.den : Nat) : Int)
  else -(((-q.num).toNat / q.den : Nat) : Int)

/-- Embeds `astype(int)` on one cell.  On non-numeric cells pandas raises; in the
app it only ever runs after `to_numeric(...).fillna(0)`, which leaves only
numeric cells, so those cases are unreachable and modelled as null. -/
def pyAstypeInt : Value → Value
  | .vInt n => .vInt n
  | .vFloat q => .vInt (ratTruncInt q)
  | _ => .vNull

/-- The app's Quantity cleanup, applied cellwise:
`pd.to_numeric(x, errors="coerce").fillna(0).astype(int)`
(src/app.py lines 68, 221 and 244). -/
def quantityCoerce (v : Value) : Value :=
  pyAstypeInt (pyFillna (.vInt 0) (pyToNumeric v))

/-- The app's Status cleanup, applied cellwise:
`astype(str).fillna("Not Started")` (src/app.py lines 48 and 201).  Note the
order: `astype(str)` runs first. -/
def statusCoerce (v : Value) : Value :=
  pyFillna (.vStr "Not Started") (pyAstypeStr v)

theorem pyAstypeStr_ne_null (v : Value) : pyAstypeStr v ≠ .vNull := by
  cases v <;> simp [pyAstypeStr]

/-- The `fillna` after `astype(str)` is dead code: `astype(str)` leaves no
missing value for `fillna` to replace. -/
theorem statusCoerce_eq_astypeStr (v : Value) :
    statusCoerce v = pyAstypeStr v := by
  unfold statusCoerce pyFillna
  rw [if_neg (pyAstypeStr_ne_null v)]

theorem parseNumCore_shape (sgn : Int) (body : List Char) (v : Value)
    (h : parseNumCore sgn body = some v) :
    (∃ n : Int, v = .vInt n) ∨ (∃ q : Rat, v = .vFloat q) := by
  unfold parseNumCore at h
  revert h
  rcases splitDot body with _ | ⟨ip, rest⟩
  · intro h
    exact absurd h (by simp)
  · rcases rest with _ | ⟨fp, rest'⟩
    · intro h
      rw [Option.map_eq_some'] at h
      obtain ⟨n, _, rfl⟩ := h
      exact Or.inl ⟨_, rfl⟩
    · rcases rest' with _ | ⟨x, t⟩
      · intro h
        dsimp only at h
        split_ifs at h
        exact Or.inr ⟨_, (Option.some.inj h).symm⟩
      · intro h
        exact absurd h (by simp)

theorem parseNumStr_shape (s : String) (v : Value)
    (h : parseNumStr s = some v) :
    (∃ n : Int, v = .vInt n) ∨ (∃ q : Rat, v = .vFloat q) := by
  unfold parseNumStr at h
  revert h
  rcases (strStrip s).data with _ | ⟨c, rest⟩
  · exact parseNumCore_shape 1 [] v
  · by_cases hc : c = '-'
    · subst hc
      exact parseNumCore_shape (-1) rest v
    · by_cases hc' : c = '+'
      · subst hc'
        exact parseNumCore_shape 1 rest v
      · intro h
        refine parseNumCore_shape 1 (c :: rest) v ?_
        revert h
        rcases c with ⟨⟨cv⟩, hv⟩
        simp_all

theorem pyToNumeric_shape (v : Value) :
    (∃ n : Int, pyToNumeric v = .vInt n) ∨
      (∃ q : Rat, pyToNumeric v = .vFloat q) ∨ pyToNumeric v = .vNull := by
  cases v with
  | vInt n => exact Or.inl ⟨n, rfl⟩
  | vFloat q => exact Or.inr (Or.inl ⟨q, rfl⟩)
  | vNull => exact Or.inr (Or.inr rfl)
  | vDate d => exact Or.inr (Or.inr rfl)
  | vStr s =>
    cases hp : parseNumStr s with
    | none => exact Or.inr (Or.inr (by simp [pyToNumeric, hp]))
    | some w =>
      have hw : pyToNumeric (.vStr s) = w := by simp [pyToNumeric, hp]
      rcases parseNumStr_shape s w hp with ⟨n, rfl⟩ | ⟨q, rfl⟩
      · exact Or.inl ⟨n, hw⟩
      · exact Or.inr (Or.inl ⟨q, hw⟩)

theorem quantityCoerce_isInt (v : Value) :
    ∃ n : Int, quantityCoerce v = .vInt n := by
  unfold quantityCoerce
  rcases pyToNumeric_shape v with ⟨n, hv⟩ | ⟨q, hv⟩ | hv <;> rw [hv]
  · exact ⟨n, by simp [pyFillna, pyAstypeInt]⟩
  · exact ⟨ratTruncInt q, by simp [pyFillna, pyAstypeInt]⟩
  · exact ⟨0, by simp [pyFillna, pyAstypeInt]⟩

theorem quantityCoerce_of_null_numeric (v : Value)
    (h : pyToNumeric v = .vNull) : quantityCoerce v = .vInt 0 := by
  unfold quantityCoerce
  rw [h]
  rfl

/-! ### Frame-level operations -/

/-- Cellwise update of one column (no-op when the label is absent), the shape
of every `df[c] = f(df[c])` cleanup line in the app. -/
def mapColumn (df : DF) (c : String) (f : Value → Value) : DF :=
  match idxOf df.cols c with
  | none => df
  | some i => { df with rows := df.rows.map (fun r => setNth r i (f (nthVal r i))) }

/-- Column update guarded by a membership test
(`if c in df.columns: df[c] = ...`). -/
def condMapColumn (df : DF) (c : String) (f : Value → Value) : DF :=
  if c ∈ df.cols then mapColumn df c f else df

/-- Embeds `df[c] = v` for a scalar: overwrite the column when present, else append
a new column holding `v` in every row. -/
def setColumnConst (df : DF) (c : String) (v : Value) : DF :=
  match idxOf df.cols c with
  | some i => { df with rows := df.rows.map (fun r => setNth r i v) }
  | none => { cols := df.cols ++ [c], rows := df.rows.map (fun r => r ++ [v]) }

def lookupRename (m : List (String × String)) (c : String) : Option String :=
  (m.find? (fun p => p.1 == c)).map (fun p => p.2)

/-- Embeds `df.rename(columns=m)`: rename every column the mapping mentions. -/
def renameCols (m : List (String × String)) (cols : List String) : List String :=
  cols.map (fun c => (lookupRename m c).getD c)

/-- Embeds `df.drop(df.index[idx], inplace=True)` for a positional index. -/
def dropRow (df : DF) (idx : Nat) : DF :=
  { df with rows := df.rows.eraseIdx idx }

theorem mapColumn_cols (df : DF) (c : String) (f : Value → Value) :
    (mapColumn df c f).cols = df.cols := by
  unfold mapColumn
  split <;> rfl

theorem mapColumn_rows_length (df : DF) (c : String) (f : Value → Value) :
    (mapColumn df c f).rows.length = df.rows.length := by
  unfold mapColumn
  split
  · rfl
  · simp

theorem mapColumn_WF (df : DF) (c : String) (f : Value → Value)
    (hwf : df.WF) : (mapColumn df c f).WF := by
  unfold mapColumn
  split
  · exact hwf
  · intro r hr
    simp only [List.mem_map] at hr
    obtain ⟨r0, hr0, rfl⟩ := hr
    simpa [length_setNth] using hwf r0 hr0

theorem mapColumn_nth (df : DF) (c : String) (f : Value → Value)
    (hwf : df.WF) (k i : Nat) (hk : k < df.rows.length) :
    nthVal (nthRow (mapColumn df c f) k) i =
      if idxOf df.cols c = some i then f (nthVal (nthRow df k) i)
      else nthVal (nthRow df k) i := by
  unfold mapColumn
  cases h : idxOf df.cols c with
  | none => simp [h]
  | some i0 =>
    have hrow :
        nthRow ⟨df.cols, df.rows.map (fun r => setNth r i0 (f (nthVal r i0)))⟩ k
          = setNth (nthRow df k) i0 (f (nthVal (nthRow df k) i0)) := by
      unfold nthRow
      exact getD_map_lt _ df.rows k [] [] hk
    rw [hrow]
    by_cases hij : i = i0
    · subst hij
      have hlen : i < (nthRow df k).length := by
        rw [hwf (nthRow df k) (getD_mem df.rows k [] hk)]
        exact idxOf_some_lt df.cols c i h
      rw [nthVal_setNth_self _ _ _ hlen]
      simp
    · rw [nthVal_setNth_ne _ _ _ _ hij,
        if_neg (fun hc => hij (Option.some.inj hc).symm)]

theorem condMapColumn_cols (df : DF) (c : String) (f : Value → Value) :
    (condMapColumn df c f).cols = df.cols := by
  unfold condMapColumn
  split
  · exact mapColumn_cols df c f
  · rfl

theorem condMapColumn_rows_length (df : DF) (c : String) (f : Value → Value) :
    (condMapColumn df c f).rows.length = df.rows.length := by
  unfold condMapColumn
  split
  · exact mapColumn_rows_length df c f
  · rfl

theorem condMapColumn_WF (df : DF) (c : String) (f : Value → Value)
    (hwf : df.WF) : (condMapColumn df c f).WF := by
  unfold condMapColumn
  split
  · exact mapColumn_WF df c f hwf
  · exact hwf

theorem condMapColumn_nth (df : DF) (c : String) (f : Value → Value)
    (hwf : df.WF) (k i : Nat) (hk : k < df.rows.length) :
    nthVal (nthRow (condMapColumn df c f) k) i =
      if idxOf df.cols c = some i then f (nthVal (nthRow df k) i)
      else nthVal (nthRow df k) i := by
  unfold condMapColumn
  split
  · exact mapColumn_nth df c f hwf k i hk
  · have hn : idxOf df.cols c = none := (idxOf_none_iff _ _).mpr (by assumption)
    simp [hn]

theorem setColumnConst_new_cols (df : DF) (c : String) (v : Value)
    (h : c ∉ df.cols) : (setColumnConst df c v).cols = df.cols ++ [c] := by
  unfold setColumnConst
  rw [(idxOf_none_iff df.cols c).mpr h]

theorem setColumnConst_new_rows (df : DF) (c : String) (v : Value)
    (h : c ∉ df.cols) :
    (setColumnConst df c v).rows = df.rows.map (fun r => r ++ [v]) := by
  unfold setColumnConst
  rw [(idxOf_none_iff df.cols c).mpr h]

theorem setColumnConst_new_WF (df : DF) (c : String) (v : Value)
    (hwf : df.WF) (h : c ∉ df.cols) : (setColumnConst df c v).WF := by
  intro r hr
  rw [setColumnConst_new_rows df c v h] at hr
  rw [setColumnConst_new_cols df c v h]
  simp only [List.mem_map] at hr
  obtain ⟨r0, hr0, rfl⟩ := hr
  simp [hwf r0 hr0]

/-! ### The loaders -/

/-- Storage → display column mapping of the timeline table
(src/app.py 30-42). -/
def timelineMapping : List (String × String) :=
  [("activity", "Activity"), ("item", "Item"), ("task", "Task"),
   ("room", "Room"), ("location", "Location"), ("notes", "Notes"),
   ("start_date", "Start Date"), ("end_date", "End Date"),
   ("status", "Status"), ("workdays", "Workdays"), ("progress", "Progress")]

/-- Storage → display column mapping of the items table (src/app.py 59-65). -/
def itemsMapping : List (String × String) :=
  [("item", "Item"), ("quantity", "Quantity"),
   ("order_status", "Order Status"), ("delivery_status", "Delivery Status"),
   ("notes", "Notes")]

/-- The column-name normalization both loaders start with:
`df.columns = df.columns.str.strip()` then `df.rename(columns=mapping)`. -/
def normalizeDF (m : List (String × String)) (raw : DF) : DF :=
  { cols := renameCols m (raw.cols.map strStrip), rows := raw.rows }

inductive LoadErr where
  | keyError (col : String)
deriving DecidableEq, Repr

/-- Embeds `load_timeline_data` (src/app.py 25-49): read the stored table, strip and
rename columns, date-coerce the two date columns when present, and re-clean
Status.  Reading `df["Status"]` when the column is absent raises `KeyError`,
modelled as `Except.error`. -/
def load_timeline_data (raw : DF) : Except LoadErr DF :=
  let df := normalizeDF timelineMapping raw
  let df := condMapColumn df "Start Date" pyToDatetime
  let df := condMapColumn df "End Date" pyToDatetime
  if "Status" ∈ df.cols then .ok (mapColumn df "Status" statusCoerce)
  else .error (.keyError "Status")

/-- Embeds `load_items_data` (src/app.py 54-72): read the stored table, strip and
rename columns, then clean each of the five columns; each cleanup line reads
its column unconditionally, raising `KeyError` when it is absent. -/
def load_items_data (raw : DF) : Except LoadErr DF :=
  let df := normalizeDF itemsMapping raw
  if "Item" ∈ df.cols then
    let df := mapColumn df "Item" pyAstypeStr
    if "Quantity" ∈ df.cols then
      let df := mapColumn df "Quantity" quantityCoerce
      if "Order Status" ∈ df.cols then
        let df := mapColumn df "Order Status" pyAstypeStr
        if "Delivery Status" ∈ df.cols then
          let df := mapColumn df "Delivery Status" pyAstypeStr
          if "Notes" ∈ df.cols then .ok (mapColumn df "Notes" pyAstypeStr)
          else .error (.keyError "Notes")
        else .error (.keyError "Delivery Status")
      else .error (.keyError "Order Status")
    else .error (.keyError "Quantity")
  else .error (.keyError "Item")

/-- The display columns the Items section expects (src/app.py 217). -/
def itemsNeededCols : List String :=
  ["Item", "Quantity", "Order Status", "Delivery Status", "Notes"]

/-- Missing-column backfill before the Items editor (src/app.py 217-219). -/
def backfillItems (df : DF) : DF :=
  itemsNeededCols.foldl
    (fun d c => if c ∈ d.cols then d else setColumnConst d c (.vStr "")) df

/-- The Items display pipeline: load, backfill missing display columns, then
re-clean each column (src/app.py 216-224). -/
def itemsDisplayPipeline (raw : DF) : Except LoadErr DF := do
  let df ← load_items_data raw
  let df := backfillItems df
  let df := mapColumn df "Item" pyAstypeStr
  let df := mapColumn df "Quantity" quantityCoerce
  let df := mapColumn df "Order Status" pyAstypeStr
  let df := mapColumn df "Delivery Status" pyAstypeStr
  pure (mapColumn df "Notes" pyAstypeStr)

/-! ### The stores and the save/handler actions -/

/-- The two database tables; `to_sql(..., if_exists="replace")` replaces a
stored frame wholesale and `read_sql` returns the stored frame. -/
structure Store where
  timeline : DF
  items : DF
deriving DecidableEq, Repr

/-- Successful `df.to_sql("Contrcution_Timeline", ..., if_exists="replace")`
(src/app.py 77-80). -/
def save_timeline_write (st : Store) (df : DF) : Store :=
  { st with timeline := df }

/-- Successful `df.to_sql("Items_Order", ..., if_exists="replace")`
(src/app.py 85-88). -/
def save_items_write (st : Store) (df : DF) : Store :=
  { st with items := df }

/-- What one button handler run leaves behind: the database state, the
in-memory grid, whether `st.experimental_rerun` (the forced reload) was
reached, and whether an error/warning was displayed. -/
structure HandlerOutcome where
  store : Store
  grid : DF
  rerun : Bool
  errorShown : Bool
deriving DecidableEq, Repr

/-- The row mask of the pre-save transform:
`edited["Status"].str.lower() == "finished"` at Status position `si`. -/
def rowFinished (si : Nat) (r : List Value) : Bool :=
  decide (pyStrLower (nthVal r si) = .vStr "finished")

/-- Pre-save transform of the Save Updates handler (src/app.py 204):
`edited.loc[edited["Status"].str.lower() == "finished", "Progress"] = 100`.
When "Progress" is absent, the pandas `.loc` assignment creates it (100 on
matching rows, NaN elsewhere); the `none` Status case is unreachable from
the handler, which has already read the Status column. -/
def saveTransform (df : DF) : DF :=
  match idxOf df.cols "Status" with
  | none => df
  | some si =>
    match idxOf df.cols "Progress" with
    | some j =>
      { df with rows := df.rows.map (fun r =>
          if rowFinished si r then setNth r j (.vInt 100) else r) }
    | none =>
      { cols := df.cols ++ ["Progress"],
        rows := df.rows.map (fun r =>
          r ++ [if rowFinished si r then .vInt 100 else .vNull]) }

/-- Status re-cleaning of the edited frame before the save button
(src/app.py 200-201). -/
def editedMainPrepared (edited : DF) : DF :=
  if "Status" ∈ edited.cols then mapColumn edited "Status" statusCoerce
  else edited

/-- The "Save Updates (Main Timeline)" handler (src/app.py 203-208).  `writeOk`
says whether the database write succeeds; on failure `to_sql` raises, the
handler shows `st.error`, and `st.experimental_rerun` is never reached.
Reading `edited["Status"]` outside the try block raises when the column is
absent, modelled as `Except.error`. -/
def saveUpdatesMain (writeOk : Bool) (st : Store) (edited : DF) :
    Except LoadErr HandlerOutcome :=
  let e := editedMainPrepared edited
  if "Status" ∈ e.cols then
    let g := saveTransform e
    if writeOk then .ok ⟨save_timeline_write st g, g, true, false⟩
    else .ok ⟨st, g, false, true⟩
  else .error (.keyError "Status")

/-- The "Delete Row (Main)" handler (src/app.py 115-128): the text input must be
all digits (`str.isdigit`) and in `[0, row_count)`, otherwise a sidebar
error is shown and nothing changes. -/
def deleteRowMain (input : String) (writeOk : Bool) (st : Store) (df : DF) :
    HandlerOutcome :=
  if isDigitStr input then
    let idx := digitsVal input.data
    if idx < df.rows.length then
      let g := dropRow df idx
      if writeOk then ⟨save_timeline_write st g, g, true, false⟩
      else ⟨st, g, false, true⟩
    else ⟨st, df, false, true⟩
  else ⟨st, df, false, true⟩

/-- The column kinds offered by the Add Column control (src/app.py 132). -/
inductive ColKind where
  | string
  | integer
  | float
  | datetime
deriving DecidableEq, Repr

/-- Default fill of a freshly added column (src/app.py 135-143): empty
string, 0, 0.0, or NaT. -/
def kindDefault : ColKind → Value
  | .string => .vStr ""
  | .integer => .vInt 0
  | .float => .vFloat 0
  | .datetime => .vNull

/-- The "Add Column (Main)" handler (src/app.py 133-149): empty or duplicate
names get a warning and change nothing; otherwise the column is appended
with its default fill and the grid is persisted. -/
def addColumnMain (name : String) (kind : ColKind) (writeOk : Bool)
    (st : Store) (df : DF) : HandlerOutcome :=
  if name ≠ "" ∧ name ∉ df.cols then
    let g := setColumnConst df name (kindDefault kind)
    if writeOk then ⟨save_timeline_write st g, g, true, false⟩
    else ⟨st, g, false, true⟩
  else ⟨st, df, false, true⟩

/-- The "Save Items Table" handler (src/app.py 242-247): re-coerce the Quantity
column in place, then persist; a raised `KeyError` (Quantity column absent)
or a write fault is caught and shown as `st.error` without persisting. -/
def saveItemsHandler (writeOk : Bool) (st : Store) (edited : DF) :
    HandlerOutcome :=
  match idxOf edited.cols "Quantity" with
  | none => ⟨st, edited, false, true⟩
  | some _ =>
    let g := mapColumn edited "Quantity" quantityCoerce
    if writeOk then ⟨save_items_write st g, g, true, false⟩
    else ⟨st, g, false, true⟩

/-! ### CSV export -/

/-- Default (QUOTE_MINIMAL) quoting: a field is quoted when it embeds a
delimiter, a quote, or a line break. -/
def csvNeedsQuote (s : String) : Bool :=
  s.data.any (fun c => c = ',' || c = '"' || c = '\n' || c = '\r')

/-- Double every quote character (CSV escaping). -/
def csvEscape : List Char → List Char
  | [] => []
  | c :: cs => if c = '"' then '"' :: '"' :: csvEscape cs else c :: csvEscape cs

def quoteField (s : String) : String :=
  if csvNeedsQuote s then "\"" ++ (⟨csvEscape s.data⟩ : String) ++ "\"" else s

/-- How `to_csv` renders one cell: missing values print as empty; the exact
numeric/date text rendering is abstracted by `toString`. -/
def renderCell : Value → String
  | .vStr s => s
  | .vInt n => toString n
  | .vFloat q => toString q
  | .vDate d => toString d
  | .vNull => ""

/-- One CSV line: fields quoted as needed, joined with commas. -/
def csvLine : List String → String
  | [] => ""
  | [f] => quoteField f
  | f :: fs => quoteField f ++ "," ++ csvLine fs

/-- The lines `to_csv(index=False)` writes: the header from the current
column names, then one line per row, in grid order (src/app.py 249-250). -/
def toCsvLines (df : DF) : List String :=
  csvLine df.cols :: df.rows.map (fun r => csvLine (r.map renderCell))

/-- Embeds `to_csv(index=False)` into the string buffer: each line followed by a
newline, accumulated in order. -/
def toCsv (df : DF) : String :=
  (toCsvLines df).foldl (fun acc l => acc ++ l ++ "\n") ""

/-- The CSV download control (src/app.py 249-256): serializes the current
in-memory items grid; neither the database stores nor the grid change. -/
def downloadItemsCsv (st : Store) (grid : DF) : Store × DF × String :=
  (st, grid, toCsv grid)

theorem strAppend_data (a b : String) : (a ++ b).data = a.data ++ b.data := rfl

theorem strAppend_assoc (a b c : String) : a ++ b ++ c = a ++ (b ++ c) := by
  cases a
  cases b
  cases c
  exact congrArg String.mk (List.append_assoc _ _ _)

theorem strAppend_empty (a : String) : a ++ "" = a := by
  cases a
  exact congrArg String.mk (List.append_nil _)

/-- Concatenation of newline-terminated lines. -/
def joinLinesNl : List String → String
  | [] => ""
  | l :: ls => l ++ "\n" ++ joinLinesNl ls

/-- Split a character stream at newlines (CSV record recovery). -/
def splitNlAux : List Char → List Char → List String
  | [], acc => [⟨acc.reverse⟩]
  | c :: rest, acc =>
    if c = '\n' then (⟨acc.reverse⟩ : String) :: splitNlAux rest []
    else splitNlAux rest (c :: acc)

/-- The records of a newline-separated byte stream. -/
def csvRecords (s : String) : List String :=
  splitNlAux s.data []

theorem foldlAppendNl_eq (lines : List String) (acc : String) :
    lines.foldl (fun a l => a ++ l ++ "\n") acc = acc ++ joinLinesNl lines := by
  induction lines generalizing acc with
  | nil => exact (strAppend_empty acc).symm
  | cons l ls ih =>
    rw [List.foldl_cons, ih, joinLinesNl]
    simp only [strAppend_assoc]

theorem toCsv_eq_joinLinesNl (df : DF) : toCsv df = joinLinesNl (toCsvLines df) := by
  unfold toCsv
  rw [foldlAppendNl_eq]
  rfl

theorem splitNlAux_clean (l : List Char) (h : ∀ c ∈ l, c ≠ '\n')
    (rest acc : List Char) :
    splitNlAux (l ++ rest) acc = splitNlAux rest (l.reverse ++ acc) := by
  induction l generalizing acc with
  | nil => rfl
  | cons c l' ih =>
    have hc : c ≠ '\n' := h c (List.mem_cons_self _ _)
    simp only [List.cons_append, splitNlAux, if_neg hc, List.append_eq]
    rw [ih (fun x hx => h x (List.mem_cons_of_mem _ hx)) (c :: acc)]
    simp [List.append_assoc]

theorem csvRecords_joinLinesNl (lines : List String)
    (h : ∀ l ∈ lines, ∀ c ∈ l.data, c ≠ '\n') :
    csvRecords (joinLinesNl lines) = lines ++ [""] := by
  unfold csvRecords
  induction lines with
  | nil => rfl
  | cons l ls ih =>
    have hdata : (joinLinesNl (l :: ls)).data
        = l.data ++ ('\n' :: (joinLinesNl ls).data) := by
      show (l ++ "\n" ++ joinLinesNl ls).data = _
      rw [strAppend_data, strAppend_data, List.append_assoc]
      rfl
    rw [hdata, splitNlAux_clean l.data (h l (List.mem_cons_self _ _)) _ []]
    simp only [splitNlAux, if_pos rfl]
    rw [ih (fun x hx => h x (List.mem_cons_of_mem _ hx))]
    simp only [List.append_nil, List.reverse_reverse]
    cases l
    rfl

/-! ### Loader traces -/

theorem map_fix {α : Type} (f : α → α) (l : List α) (h : ∀ a ∈ l, f a = a) :
    l.map f = l := by
  induction l with
  | nil => rfl
  | cons x xs ih =>
    rw [List.map_cons, h x (List.mem_cons_self _ _),
      ih (fun a ha => h a (List.mem_cons_of_mem _ ha))]

/-- Column names the loader's normalization leaves unchanged: already
trimmed, and not a storage name the rename map touches. -/
def normFixed (m : List (String × String)) (cols : List String) : Prop :=
  ∀ c ∈ cols, strStrip c = c ∧ lookupRename m c = none

instance (m : List (String × String)) (cols : List String) :
    Decidable (normFixed m cols) :=
  inferInstanceAs (Decidable (∀ c ∈ cols, _ ∧ _))

theorem normalizeDF_rows (m : List (String × String)) (raw : DF) :
    (normalizeDF m raw).rows = raw.rows := rfl

theorem normalizeDF_cols_length (m : List (String × String)) (raw : DF) :
    (normalizeDF m raw).cols.length = raw.cols.length := by
  simp [normalizeDF, renameCols]

theorem normalizeDF_WF (m : List (String × String)) (raw : DF)
    (hwf : raw.WF) : (normalizeDF m raw).WF := by
  intro r hr
  rw [normalizeDF_cols_length]
  exact hwf r hr

theorem normalizeDF_of_fixed (m : List (String × String)) (raw : DF)
    (h : normFixed m raw.cols) : normalizeDF m raw = raw := by
  unfold normalizeDF renameCols
  rw [map_fix _ _ (fun c hc => (h c hc).1)]
  rw [map_fix _ _ (fun c hc => by rw [(h c hc).2]; rfl)]

theorem idxOf_some_unique (l : List String) (a b : String) (i : Nat)
    (ha : idxOf l a = some i) (hb : idxOf l b = some i) : a = b := by
  rw [← idxOf_getD l a i ha, ← idxOf_getD l b i hb]

theorem idxOf_ne_of_some (l : List String) (a b : String) (i : Nat)
    (hab : a ≠ b) (hb : idxOf l b = some i) : ¬ idxOf l a = some i :=
  fun ha => hab (idxOf_some_unique l a b i ha hb)

/-- Per-position cell effect of `load_timeline_data` after normalization. -/
def timelineCellFix (cols : List String) (i : Nat) (v : Value) : Value :=
  if idxOf cols "Status" = some i then statusCoerce v
  else if idxOf cols "Start Date" = some i then pyToDatetime v
  else if idxOf cols "End Date" = some i then pyToDatetime v
  else v

theorem load_timeline_trace (raw : DF) (hwf : raw.WF)
    (hs : "Status" ∈ (normalizeDF timelineMapping raw).cols) :
    ∃ df, load_timeline_data raw = .ok df ∧
      df.cols = (normalizeDF timelineMapping raw).cols ∧
      df.rows.length = raw.rows.length ∧ df.WF ∧
      ∀ k i, k < raw.rows.length →
        nthVal (nthRow df k) i =
          timelineCellFix (normalizeDF timelineMapping raw).cols i
            (nthVal (nthRow (normalizeDF timelineMapping raw) k) i) := by
  set n := normalizeDF timelineMapping raw with hn
  have hwfn : n.WF := normalizeDF_WF _ _ hwf
  have hrl : n.rows.length = raw.rows.length := by rw [hn, normalizeDF_rows]
  set d1 := condMapColumn n "Start Date" pyToDatetime with hd1
  have c1 : d1.cols = n.cols := condMapColumn_cols _ _ _
  have l1 : d1.rows.length = n.rows.length := condMapColumn_rows_length _ _ _
  have w1 : d1.WF := condMapColumn_WF _ _ _ hwfn
  set d2 := condMapColumn d1 "End Date" pyToDatetime with hd2
  have c2 : d2.cols = n.cols := by rw [hd2, condMapColumn_cols, c1]
  have l2 : d2.rows.length = n.rows.length := by
    rw [hd2, condMapColumn_rows_length, l1]
  have w2 : d2.WF := condMapColumn_WF _ _ _ w1
  set d3 := mapColumn d2 "Status" statusCoerce with hd3
  have c3 : d3.cols = n.cols := by rw [hd3, mapColumn_cols, c2]
  have l3 : d3.rows.length = n.rows.length := by
    rw [hd3, mapColumn_rows_length, l2]
  have w3 : d3.WF := mapColumn_WF _ _ _ w2
  refine ⟨d3, ?_, by rw [c3], by rw [l3, hrl], w3, ?_⟩
  · simp only [load_timeline_data, ← hn, ← hd1, ← hd2, ← hd3]
    rw [if_pos (c2 ▸ hs)]
  · intro k i hk
    have hk1 : k < d1.rows.length := by rw [l1, hrl]; exact hk
    have hk2 : k < d2.rows.length := by rw [l2, hrl]; exact hk
    have hkn : k < n.rows.length := by rw [hrl]; exact hk
    have e3 := mapColumn_nth d2 "Status" statusCoerce w2 k i hk2
    have e2 := condMapColumn_nth d1 "End Date" pyToDatetime w1 k i hk1
    have e1 := condMapColumn_nth n "Start Date" pyToDatetime hwfn k i hkn
    rw [c2] at e3
    rw [c1] at e2
    rw [← hd3] at e3
    rw [← hd2] at e2
    rw [← hd1] at e1
    unfold timelineCellFix
    by_cases hS : idxOf n.cols "Status" = some i
    · rw [e3, if_pos hS, if_pos hS, e2,
        if_neg (idxOf_ne_of_some n.cols "End Date" "Status" i (by decide) hS),
        e1,
        if_neg (idxOf_ne_of_some n.cols "Start Date" "Status" i (by decide) hS)]
    · rw [e3, if_neg hS, if_neg hS]
      by_cases hSD : idxOf n.cols "Start Date" = some i
      · rw [e2,
          if_neg (idxOf_ne_of_some n.cols "End Date" "Start Date" i (by decide) hSD),
          e1, if_pos hSD, if_pos hSD]
      · rw [if_neg hSD]
        by_cases hED : idxOf n.cols "End Date" = some i
        · rw [e2, if_pos hED, e1, if_neg hSD, if_pos hED]
        · rw [e2, if_neg hED, e1, if_neg hSD, if_neg hED]

/-- Per-position cell effect of `load_items_data` after normalization. -/
def itemsCellFix (cols : List String) (i : Nat) (v : Value) : Value :=
  if idxOf cols "Quantity" = some i then quantityCoerce v
  else if idxOf cols "Item" = some i then pyAstypeStr v
  else if idxOf cols "Order Status" = some i then pyAstypeStr v
  else if idxOf cols "Delivery Status" = some i then pyAstypeStr v
  else if idxOf cols "Notes" = some i then pyAstypeStr v
  else v

theorem load_items_trace (raw : DF) (hwf : raw.WF)
    (hI : "Item" ∈ (normalizeDF itemsMapping raw).cols)
    (hQ : "Quantity" ∈ (normalizeDF itemsMapping raw).cols)
    (hO : "Order Status" ∈ (normalizeDF itemsMapping raw).cols)
    (hD : "Delivery Status" ∈ (normalizeDF itemsMapping raw).cols)
    (hN : "Notes" ∈ (normalizeDF itemsMapping raw).cols) :
    ∃ df, load_items_data raw = .ok df ∧
      df.cols = (normalizeDF itemsMapping raw).cols ∧
      df.rows.length = raw.rows.length ∧ df.WF ∧
      ∀ k i, k < raw.rows.length →
        nthVal (nthRow df k) i =
          itemsCellFix (normalizeDF itemsMapping raw).cols i
            (nthVal (nthRow (normalizeDF itemsMapping raw) k) i) := by
  set n := normalizeDF itemsMapping raw with hn
  have hwfn : n.WF := normalizeDF_WF _ _ hwf
  have hrl : n.rows.length = raw.rows.length := by rw [hn, normalizeDF_rows]
  set d1 := mapColumn n "Item" pyAstypeStr with hd1
  have c1 : d1.cols = n.cols := mapColumn_cols _ _ _
  have l1 : d1.rows.length = n.rows.length := mapColumn_rows_length _ _ _
  have w1 : d1.WF := mapColumn_WF _ _ _ hwfn
  set d2 := mapColumn d1 "Quantity" quantityCoerce with hd2
  have c2 : d2.cols = n.cols := by rw [hd2, mapColumn_cols, c1]
  have l2 : d2.rows.length = n.rows.length := by
    rw [hd2, mapColumn_rows_length, l1]
  have w2 : d2.WF := mapColumn_WF _ _ _ w1
  set d3 := mapColumn d2 "Order Status" pyAstypeStr with hd3
  have c3 : d3.cols = n.cols := by rw [hd3, mapColumn_cols, c2]
  have l3 : d3.rows.length = n.rows.length := by
    rw [hd3, mapColumn_rows_length, l2]
  have w3 : d3.WF := mapColumn_WF _ _ _ w2
  set d4 := mapColumn d3 "Delivery Status" pyAstypeStr with hd4
  have c4 : d4.cols = n.cols := by rw [hd4, mapColumn_cols, c3]
  have l4 : d4.rows.length = n.rows.length := by
    rw [hd4, mapColumn_rows_length, l3]
  have w4 : d4.WF := mapColumn_WF _ _ _ w3
  set d5 := mapColumn d4 "Notes" pyAstypeStr with hd5
  have c5 : d5.cols = n.cols := by rw [hd5, mapColumn_cols, c4]
  have l5 : d5.rows.length = n.rows.length := by
    rw [hd5, mapColumn_rows_length, l4]
  have w5 : d5.WF := mapColumn_WF _ _ _ w4
  refine ⟨d5, ?_, by rw [c5], by rw [l5, hrl], w5, ?_⟩
  · simp only [load_items_data, ← hn, ← hd1, ← hd2, ← hd3, ← hd4, ← hd5]
    rw [if_pos hI, if_pos (c1 ▸ hQ), if_pos (c2 ▸ hO), if_pos (c3 ▸ hD),
      if_pos (c4 ▸ hN)]
  · intro k i hk
    have hkn : k < n.rows.length := by rw [hrl]; exact hk
    have hk1 : k < d1.rows.length := by rw [l1]; exact hkn
    have hk2 : k < d2.rows.length := by rw [l2]; exact hkn
    have hk3 : k < d3.rows.length := by rw [l3]; exact hkn
    have hk4 : k < d4.rows.length := by rw [l4]; exact hkn
    have e1 := mapColumn_nth n "Item" pyAstypeStr hwfn k i hkn
    have e2 := mapColumn_nth d1 "Quantity" quantityCoerce w1 k i hk1
    have e3 := mapColumn_nth d2 "Order Status" pyAstypeStr w2 k i hk2
    have e4 := mapColumn_nth d3 "Delivery Status" pyAstypeStr w3 k i hk3
    have e5 := mapColumn_nth d4 "Notes" pyAstypeStr w4 k i hk4
    rw [c1] at e2
    rw [c2] at e3
    rw [c3] at e4
    rw [c4] at e5
    rw [← hd1] at e1
    rw [← hd2] at e2
    rw [← hd3] at e3
    rw [← hd4] at e4
    rw [← hd5] at e5
    unfold itemsCellFix
    by_cases hiQ : idxOf n.cols "Quantity" = some i
    · rw [e5, if_neg (idxOf_ne_of_some n.cols "Notes" "Quantity" i (by decide) hiQ),
        e4, if_neg (idxOf_ne_of_some n.cols "Delivery Status" "Quantity" i (by decide) hiQ),
        e3, if_neg (idxOf_ne_of_some n.cols "Order Status" "Quantity" i (by decide) hiQ),
        e2, if_pos hiQ,
        e1, if_neg (idxOf_ne_of_some n.cols "Item" "Quantity" i (by decide) hiQ),
        if_pos hiQ]
    · rw [e5]
      rw [if_neg hiQ]
      by_cases hiI : idxOf n.cols "Item" = some i
      · rw [if_neg (idxOf_ne_of_some n.cols "Notes" "Item" i (by decide) hiI),
          e4, if_neg (idxOf_ne_of_some n.cols "Delivery Status" "Item" i (by decide) hiI),
          e3, if_neg (idxOf_ne_of_some n.cols "Order Status" "Item" i (by decide) hiI),
          e2, if_neg hiQ,
          e1, if_pos hiI, if_pos hiI]
      · rw [if_neg hiI]
        by_cases hiO : idxOf n.cols "Order Status" = some i
        · rw [if_neg (idxOf_ne_of_some n.cols "Notes" "Order Status" i (by decide) hiO),
            e4, if_neg (idxOf_ne_of_some n.cols "Delivery Status" "Order Status" i (by decide) hiO),
            e3, if_pos hiO,
            e2, if_neg hiQ,
            e1, if_neg hiI, if_pos hiO]
        · rw [if_neg hiO]
          by_cases hiD : idxOf n.cols "Delivery Status" = some i
          · rw [if_neg (idxOf_ne_of_some n.cols "Notes" "Delivery Status" i (by decide) hiD),
              e4, if_pos hiD,
              e3, if_neg hiO,
              e2, if_neg hiQ,
              e1, if_neg hiI, if_pos hiD]
          · rw [if_neg hiD]
            by_cases hiN : idxOf n.cols "Notes" = some i
            · rw [if_pos hiN,
                e4, if_neg hiD,
                e3, if_neg hiO,
                e2, if_neg hiQ,
                e1, if_neg hiI, if_pos hiN]
            · rw [if_neg hiN,
                e4, if_neg hiD,
                e3, if_neg hiO,
                e2, if_neg hiQ,
                e1, if_neg hiI, if_neg hiN]

/-! ### Claim-level per-column coercions -/

/-- The timeline loader's declared coercion for a display column name. -/
def timelineCellCoerce (c : String) (v : Value) : Value :=
  if c = "Status" then statusCoerce v
  else if c = "Start Date" ∨ c = "End Date" then pyToDatetime v
  else v

/-- The items loader's declared coercion for a display column name. -/
def itemsCellCoerce (c : String) (v : Value) : Value :=
  if c = "Quantity" then quantityCoerce v
  else if c = "Item" ∨ c = "Order Status" ∨ c = "Delivery Status" ∨ c = "Notes"
    then pyAstypeStr v
  else v

theorem idxOf_iff_getD (l : List String) (c : String) (i : Nat)
    (hnd : l.Nodup) (hi : i < l.length) :
    idxOf l c = some i ↔ l.getD i "" = c :=
  ⟨idxOf_getD l c i, fun h => h ▸ idxOf_of_nodup_getD l i hnd hi⟩

theorem timelineCellFix_eq (cols : List String) (i : Nat)
    (hnd : cols.Nodup) (hi : i < cols.length) (v : Value) :
    timelineCellFix cols i v = timelineCellCoerce (cols.getD i "") v := by
  unfold timelineCellFix timelineCellCoerce
  by_cases hS : cols.getD i "" = "Status"
  · rw [if_pos ((idxOf_iff_getD cols _ i hnd hi).mpr hS), if_pos hS]
  · rw [if_neg (fun hc => hS (idxOf_getD _ _ _ hc)), if_neg hS]
    by_cases hSD : cols.getD i "" = "Start Date"
    · rw [if_pos ((idxOf_iff_getD cols _ i hnd hi).mpr hSD), if_pos (Or.inl hSD)]
    · rw [if_neg (fun hc => hSD (idxOf_getD _ _ _ hc))]
      by_cases hED : cols.getD i "" = "End Date"
      · rw [if_pos ((idxOf_iff_getD cols _ i hnd hi).mpr hED), if_pos (Or.inr hED)]
      · rw [if_neg (fun hc => hED (idxOf_getD _ _ _ hc)),
          if_neg (fun hc => hc.elim hSD hED)]

theorem itemsCellFix_eq (cols : List String) (i : Nat)
    (hnd : cols.Nodup) (hi : i < cols.length) (v : Value) :
    itemsCellFix cols i v = itemsCellCoerce (cols.getD i "") v := by
  unfold itemsCellFix itemsCellCoerce
  by_cases hQ : cols.getD i "" = "Quantity"
  · rw [if_pos ((idxOf_iff_getD cols _ i hnd hi).mpr hQ), if_pos hQ]
  · rw [if_neg (fun hc => hQ (idxOf_getD _ _ _ hc)), if_neg hQ]
    by_cases hI : cols.getD i "" = "Item"
    · rw [if_pos ((idxOf_iff_getD cols _ i hnd hi).mpr hI),
        if_pos (Or.inl hI)]
    · rw [if_neg (fun hc => hI (idxOf_getD _ _ _ hc))]
      by_cases hO : cols.getD i "" = "Order Status"
      · rw [if_pos ((idxOf_iff_getD cols _ i hnd hi).mpr hO),
          if_pos (Or.inr (Or.inl hO))]
      · rw [if_neg (fun hc => hO (idxOf_getD _ _ _ hc))]
        by_cases hD : cols.getD i "" = "Delivery Status"
        · rw [if_pos ((idxOf_iff_getD cols _ i hnd hi).mpr hD),
            if_pos (Or.inr (Or.inr (Or.inl hD)))]
        · rw [if_neg (fun hc => hD (idxOf_getD _ _ _ hc))]
          by_cases hLast : cols.getD i "" = "Notes"
          · rw [if_pos ((idxOf_iff_getD cols _ i hnd hi).mpr hLast),
              if_pos (Or.inr (Or.inr (Or.inr hLast)))]
          · rw [if_neg (fun hc => hLast (idxOf_getD _ _ _ hc)),
              if_neg (fun hc => hc.elim hI (fun hc2 => hc2.elim hO (fun hc3 => hc3.elim hD hLast)))]

instance (df : DF) : Decidable df.WF :=
  inferInstanceAs (Decidable (∀ r ∈ df.rows, r.length = df.cols.length))

theorem saveTransform_row (df : DF) (si j : Nat)
    (hs : idxOf df.cols "Status" = some si)
    (hp : idxOf df.cols "Progress" = some j)
    (k : Nat) (hk : k < df.rows.length) :
    nthRow (saveTransform df) k =
      if rowFinished si (nthRow df k)
        then setNth (nthRow df k) j (.vInt 100) else nthRow df k := by
  unfold saveTransform
  rw [hs, hp]
  unfold nthRow
  exact getD_map_lt _ df.rows k [] [] hk

/-! ### The claims -/

/-- C1: Save's pre-save transform on the Timeline grid: every row whose
Status equals "Finished" case-insensitively has its Progress forced to 100,
regardless of its prior value; rows with any other Status keep their
Progress unchanged. -/
theorem save_transform_forces_progress (df : DF) (hwf : df.WF)
    (si j : Nat) (hs : idxOf df.cols "Status" = some si)
    (hp : idxOf df.cols "Progress" = some j)
    (k : Nat) (hk : k < df.rows.length) (s : String)
    (hstat : nthVal (nthRow df k) si = .vStr s) :
    (strLower s = "finished" →
      nthVal (nthRow (saveTransform df) k) j = .vInt 100)
    ∧ (strLower s ≠ "finished" →
      nthVal (nthRow (saveTransform df) k) j = nthVal (nthRow df k) j) := by
  have hrow := saveTransform_row df si j hs hp k hk
  constructor
  · intro hfin
    have hmask : rowFinished si (nthRow df k) = true := by
      unfold rowFinished
      rw [hstat]
      simp [pyStrLower, hfin]
    rw [hrow, if_pos hmask]
    refine nthVal_setNth_self _ _ _ ?_
    rw [hwf (nthRow df k) (getD_mem df.rows k [] hk)]
    exact idxOf_some_lt _ _ _ hp
  · intro hnfin
    have hmask : rowFinished si (nthRow df k) = false := by
      unfold rowFinished
      rw [hstat]
      simp [pyStrLower, hnfin]
    rw [hrow]
    simp [hmask]

/-- Witness for C1 at a concrete grid: the row with Status "FINISHED" (and
Progress 5) gets Progress 100. -/
theorem save_transform_forces_progress_witness :
    (strLower "FINISHED" = "finished" →
      nthVal (nthRow (saveTransform
        ⟨["Status", "Progress"], [[.vStr "FINISHED", .vInt 5]]⟩) 0) 1
        = .vInt 100)
    ∧ (strLower "FINISHED" ≠ "finished" →
      nthVal (nthRow (saveTransform
        ⟨["Status", "Progress"], [[.vStr "FINISHED", .vInt 5]]⟩) 0) 1
        = nthVal (nthRow
          (⟨["Status", "Progress"], [[.vStr "FINISHED", .vInt 5]]⟩ : DF) 0) 1) :=
  save_transform_forces_progress
    ⟨["Status", "Progress"], [[.vStr "FINISHED", .vInt 5]]⟩
    (by decide) 0 1 (by decide) (by decide) 0 (by decide) "FINISHED" (by decide)

/-- C3 (code-bug evidence): loading a timeline table whose stored status is
NULL yields the Status string "None", not "Not Started" — `astype(str)`
stringifies the missing value before the `fillna("Not Started")` can see
it, so the default never fires (see `statusCoerce_eq_astypeStr`). -/
theorem status_null_loads_as_string_none :
    load_timeline_data ⟨["status"], [[.vNull]]⟩
      = .ok ⟨["Status"], [[.vStr "None"]]⟩ := by rfl

/-- C5: Delete Row with input that is not all digits (non-integer or
negative) or whose index is ≥ row count shows an error and is a no-op: the
grid and the stores are unchanged and no save or rerun happens. -/
theorem delete_row_invalid_noop (input : String) (writeOk : Bool)
    (st : Store) (df : DF)
    (h : isDigitStr input = false ∨
      (isDigitStr input = true ∧ df.rows.length ≤ digitsVal input.data)) :
    deleteRowMain input writeOk st df = ⟨st, df, false, true⟩ := by
  unfold deleteRowMain
  rcases h with h | ⟨h1, h2⟩
  · simp [h]
  · simp [h1, Nat.not_lt.mpr h2]

/-- Witness for C5: deleting row "7" of a one-row grid is rejected and
changes nothing. -/
theorem delete_row_invalid_noop_witness :
    deleteRowMain "7" true ⟨⟨[], []⟩, ⟨[], []⟩⟩ ⟨["Status"], [[.vNull]]⟩
      = ⟨⟨⟨[], []⟩, ⟨[], []⟩⟩, ⟨["Status"], [[.vNull]]⟩, false, true⟩ :=
  delete_row_invalid_noop "7" true ⟨⟨[], []⟩, ⟨[], []⟩⟩ ⟨["Status"], [[.vNull]]⟩
    (Or.inr ⟨by decide, by decide⟩)

theorem editedMainPrepared_cols (e : DF) :
    (editedMainPrepared e).cols = e.cols := by
  unfold editedMainPrepared
  split
  · exact mapColumn_cols _ _ _
  · rfl

/-- C8: when the timeline write fails, the forced reload
(`st.experimental_rerun`) is not reached, the stores are untouched, an
error is shown, and the in-memory grid still holds the user's edited frame
(with the pre-save transform applied in place); the rerun happens exactly
when the write succeeds. -/
theorem save_failure_keeps_edits (st : Store) (edited : DF)
    (h : "Status" ∈ edited.cols) :
    saveUpdatesMain false st edited
      = .ok ⟨st, saveTransform (editedMainPrepared edited), false, true⟩
    ∧ Except.map HandlerOutcome.rerun (saveUpdatesMain true st edited)
      = .ok true := by
  have hmem : "Status" ∈ (editedMainPrepared edited).cols := by
    rw [editedMainPrepared_cols]
    exact h
  constructor
  · unfold saveUpdatesMain
    rw [if_pos hmem]
    rfl
  · unfold saveUpdatesMain
    rw [if_pos hmem]
    rfl

/-- Witness for C8 at a concrete store and grid. -/
theorem save_failure_keeps_edits_witness :
    saveUpdatesMain false ⟨⟨[], []⟩, ⟨[], []⟩⟩ ⟨["Status"], [[.vStr "Delayed"]]⟩
      = .ok ⟨⟨⟨[], []⟩, ⟨[], []⟩⟩,
          saveTransform (editedMainPrepared ⟨["Status"], [[.vStr "Delayed"]]⟩),
          false, true⟩
    ∧ Except.map HandlerOutcome.rerun
        (saveUpdatesMain true ⟨⟨[], []⟩, ⟨[], []⟩⟩ ⟨["Status"], [[.vStr "Delayed"]]⟩)
      = .ok true :=
  save_failure_keeps_edits ⟨⟨[], []⟩, ⟨[], []⟩⟩ ⟨["Status"], [[.vStr "Delayed"]]⟩
    (by decide)

/-- C6: Add Column with an empty or already-present name warns and is a
no-op (column count unchanged); otherwise it appends a new column whose
every row holds the kind's zero value (empty string, 0, 0.0, or null
date). -/
theorem add_column_spec (name : String) (kind : ColKind) (writeOk : Bool)
    (st : Store) (df : DF) (hwf : df.WF) (k : Nat) (hk : k < df.rows.length) :
    ((name = "" ∨ name ∈ df.cols) →
      addColumnMain name kind writeOk st df = ⟨st, df, false, true⟩)
    ∧ (name ≠ "" → name ∉ df.cols →
        (addColumnMain name kind writeOk st df).grid.cols = df.cols ++ [name]
        ∧ nthVal (nthRow (addColumnMain name kind writeOk st df).grid k)
            df.cols.length = kindDefault kind)
    ∧ kindDefault .string = .vStr "" ∧ kindDefault .integer = .vInt 0
    ∧ kindDefault .float = .vFloat 0 ∧ kindDefault .datetime = .vNull := by
  refine ⟨?_, ?_, rfl, rfl, rfl, rfl⟩
  · intro hbad
    unfold addColumnMain
    rw [if_neg]
    intro ⟨h1, h2⟩
    rcases hbad with hb | hb
    · exact h1 hb
    · exact h2 hb
  · intro h1 h2
    have hgrid : (addColumnMain name kind writeOk st df).grid
        = setColumnConst df name (kindDefault kind) := by
      unfold addColumnMain
      rw [if_pos ⟨h1, h2⟩]
      cases writeOk <;> rfl
    refine ⟨by rw [hgrid, setColumnConst_new_cols df name _ h2], ?_⟩
    rw [hgrid]
    have hrow : nthRow (setColumnConst df name (kindDefault kind)) k
        = nthRow df k ++ [kindDefault kind] := by
      unfold nthRow
      rw [setColumnConst_new_rows df name _ h2]
      exact getD_map_lt _ df.rows k [] [] hk
    rw [hrow, ← hwf (nthRow df k) (getD_mem df.rows k [] hk)]
    exact nthVal_append_self _ _

/-- Witness for C6: adding an integer column "Cost" to a one-column grid
appends it with every row set to 0, while re-adding "Status" is a no-op. -/
theorem add_column_spec_witness :
    (("Status" = "" ∨ "Status" ∈ (⟨["Status"], [[.vNull]]⟩ : DF).cols) →
      addColumnMain "Status" .integer true ⟨⟨[], []⟩, ⟨[], []⟩⟩
          ⟨["Status"], [[.vNull]]⟩
        = ⟨⟨⟨[], []⟩, ⟨[], []⟩⟩, ⟨["Status"], [[.vNull]]⟩, false, true⟩)
    ∧ ("Status" ≠ "" → "Status" ∉ (⟨["Status"], [[.vNull]]⟩ : DF).cols →
        (addColumnMain "Status" .integer true ⟨⟨[], []⟩, ⟨[], []⟩⟩
            ⟨["Status"], [[.vNull]]⟩).grid.cols
          = (⟨["Status"], [[.vNull]]⟩ : DF).cols ++ ["Status"]
        ∧ nthVal (nthRow (addColumnMain "Status" .integer true ⟨⟨[], []⟩, ⟨[], []⟩⟩
            ⟨["Status"], [[.vNull]]⟩).grid 0)
            (⟨["Status"], [[.vNull]]⟩ : DF).cols.length = kindDefault .integer)
    ∧ kindDefault .string = .vStr "" ∧ kindDefault .integer = .vInt 0
    ∧ kindDefault .float = .vFloat 0 ∧ kindDefault .datetime = .vNull :=
  add_column_spec "Status" .integer true ⟨⟨[], []⟩, ⟨[], []⟩⟩
    ⟨["Status"], [[.vNull]]⟩ (by decide) 0 (by decide)

/-- C10: the Items save path re-applies the Quantity coercion right before
persisting: the persisted Quantity column equals the cellwise
`to_numeric(...).fillna(0).astype(int)` of the edited grid, every persisted
Quantity cell is an integer, and a cell `to_numeric` cannot parse (or a
null) is stored as 0 — independently of any load-time coercion. -/
theorem items_save_coerces_quantity (st : Store) (edited : DF)
    (hwf : edited.WF) (i : Nat)
    (hq : idxOf edited.cols "Quantity" = some i)
    (k : Nat) (hk : k < edited.rows.length) :
    (saveItemsHandler true st edited).store.items
        = mapColumn edited "Quantity" quantityCoerce
    ∧ nthVal (nthRow (saveItemsHandler true st edited).store.items k) i
        = quantityCoerce (nthVal (nthRow edited k) i)
    ∧ (∃ n : Int,
        nthVal (nthRow (saveItemsHandler true st edited).store.items k) i
          = .vInt n)
    ∧ (pyToNumeric (nthVal (nthRow edited k) i) = .vNull →
        nthVal (nthRow (saveItemsHandler true st edited).store.items k) i
          = .vInt 0) := by
  have hstore : (saveItemsHandler true st edited).store.items
      = mapColumn edited "Quantity" quantityCoerce := by
    unfold saveItemsHandler
    rw [hq]
    rfl
  have hcell : nthVal (nthRow (saveItemsHandler true st edited).store.items k) i
      = quantityCoerce (nthVal (nthRow edited k) i) := by
    rw [hstore, mapColumn_nth edited "Quantity" quantityCoerce hwf k i hk,
      if_pos hq]
  refine ⟨hstore, hcell, ?_, ?_⟩
  · rw [hcell]
    exact quantityCoerce_isInt _
  · intro hnull
    rw [hcell]
    exact quantityCoerce_of_null_numeric _ hnull

/-- Witness for C10: saving an items grid whose Quantity cell is the
unparsable string "abc" persists Quantity 0. -/
theorem items_save_coerces_quantity_witness :
    (saveItemsHandler true ⟨⟨[], []⟩, ⟨[], []⟩⟩
        ⟨["Quantity"], [[.vStr "abc"]]⟩).store.items
      = mapColumn ⟨["Quantity"], [[.vStr "abc"]]⟩ "Quantity" quantityCoerce
    ∧ nthVal (nthRow (saveItemsHandler true ⟨⟨[], []⟩, ⟨[], []⟩⟩
        ⟨["Quantity"], [[.vStr "abc"]]⟩).store.items 0) 0
      = quantityCoerce (nthVal (nthRow (⟨["Quantity"], [[.vStr "abc"]]⟩ : DF) 0) 0)
    ∧ (∃ n : Int,
        nthVal (nthRow (saveItemsHandler true ⟨⟨[], []⟩, ⟨[], []⟩⟩
          ⟨["Quantity"], [[.vStr "abc"]]⟩).store.items 0) 0 = .vInt n)
    ∧ (pyToNumeric (nthVal (nthRow (⟨["Quantity"], [[.vStr "abc"]]⟩ : DF) 0) 0)
          = .vNull →
        nthVal (nthRow (saveItemsHandler true ⟨⟨[], []⟩, ⟨[], []⟩⟩
          ⟨["Quantity"], [[.vStr "abc"]]⟩).store.items 0) 0 = .vInt 0) :=
  items_save_coerces_quantity ⟨⟨[], []⟩, ⟨[], []⟩⟩ ⟨["Quantity"], [[.vStr "abc"]]⟩
    (by decide) 0 (by decide) 0 (by decide)

theorem load_items_ok_inv (raw : DF) (df : DF)
    (hok : load_items_data raw = .ok df) :
    "Item" ∈ (normalizeDF itemsMapping raw).cols ∧
    "Quantity" ∈ (normalizeDF itemsMapping raw).cols ∧
    "Order Status" ∈ (normalizeDF itemsMapping raw).cols ∧
    "Delivery Status" ∈ (normalizeDF itemsMapping raw).cols ∧
    "Notes" ∈ (normalizeDF itemsMapping raw).cols := by
  simp only [load_items_data, mapColumn_cols] at hok
  split_ifs at hok with h1 h2 h3 h4 h5
  exact ⟨h1, h2, h3, h4, h5⟩

/-- C4 counterexample: the items loader preserves the negative numeric
string "-2" as the negative integer -2, so a loaded Quantity value can be
negative. -/
theorem quantity_negative_loaded_cex :
    load_items_data
        ⟨["item", "quantity", "order_status", "delivery_status", "notes"],
          [[.vStr "Nails", .vStr "-2", .vStr "Ordered", .vStr "Delayed", .vStr ""]]⟩
      = .ok ⟨["Item", "Quantity", "Order Status", "Delivery Status", "Notes"],
          [[.vStr "Nails", .vInt (-2), .vStr "Ordered", .vStr "Delayed", .vStr ""]]⟩ := by
  rfl

/-- C4 amended: every loaded Quantity cell is an integer, obtained from the
stored cell by `to_numeric(...).fillna(0).astype(int)`; non-numeric, empty
and null inputs become 0, while negative numeric inputs are preserved (not
clamped to 0). -/
theorem quantity_loaded_integer (raw : DF) (hwf : raw.WF) (df : DF)
    (hok : load_items_data raw = .ok df) (i : Nat)
    (hq : idxOf df.cols "Quantity" = some i)
    (k : Nat) (hk : k < df.rows.length) :
    nthVal (nthRow df k) i = quantityCoerce (nthVal (nthRow raw k) i)
    ∧ (∃ n : Int, nthVal (nthRow df k) i = .vInt n)
    ∧ (pyToNumeric (nthVal (nthRow raw k) i) = .vNull →
        nthVal (nthRow df k) i = .vInt 0) := by
  obtain ⟨h1, h2, h3, h4, h5⟩ := load_items_ok_inv raw df hok
  obtain ⟨df', hok', hcols, hlen, hwf', hcell⟩ :=
    load_items_trace raw hwf h1 h2 h3 h4 h5
  rw [hok'] at hok
  obtain rfl : df' = df := Except.ok.inj hok
  have hk' : k < raw.rows.length := by rw [← hlen]; exact hk
  have hq' : idxOf (normalizeDF itemsMapping raw).cols "Quantity" = some i := by
    rw [← hcols]; exact hq
  have hfix : nthVal (nthRow df' k) i
      = quantityCoerce (nthVal (nthRow raw k) i) := by
    rw [hcell k i hk']
    unfold itemsCellFix
    rw [if_pos hq']
    rfl
  rw [hfix]
  exact ⟨rfl, quantityCoerce_isInt _, quantityCoerce_of_null_numeric _⟩

/-- Witness for C4 amended: the unparsable Quantity "abc" loads as 0. -/
theorem quantity_loaded_integer_witness :
    nthVal (nthRow (⟨["Item", "Quantity", "Order Status", "Delivery Status", "Notes"],
        [[.vStr "Cement", .vInt 0, .vStr "None", .vStr "None", .vStr "None"]]⟩ : DF) 0) 1
      = quantityCoerce (nthVal (nthRow
        (⟨["item", "quantity", "order_status", "delivery_status", "notes"],
          [[.vStr "Cement", .vStr "abc", .vNull, .vNull, .vNull]]⟩ : DF) 0) 1)
    ∧ (∃ n : Int,
        nthVal (nthRow (⟨["Item", "Quantity", "Order Status", "Delivery Status", "Notes"],
          [[.vStr "Cement", .vInt 0, .vStr "None", .vStr "None", .vStr "None"]]⟩ : DF) 0) 1
          = .vInt n)
    ∧ (pyToNumeric (nthVal (nthRow
          (⟨["item", "quantity", "order_status", "delivery_status", "notes"],
            [[.vStr "Cement", .vStr "abc", .vNull, .vNull, .vNull]]⟩ : DF) 0) 1) = .vNull →
        nthVal (nthRow (⟨["Item", "Quantity", "Order Status", "Delivery Status", "Notes"],
          [[.vStr "Cement", .vInt 0, .vStr "None", .vStr "None", .vStr "None"]]⟩ : DF) 0) 1
          = .vInt 0) :=
  quantity_loaded_integer
    ⟨["item", "quantity", "order_status", "delivery_status", "notes"],
      [[.vStr "Cement", .vStr "abc", .vNull, .vNull, .vNull]]⟩
    (by decide)
    ⟨["Item", "Quantity", "Order Status", "Delivery Status", "Notes"],
      [[.vStr "Cement", .vInt 0, .vStr "None", .vStr "None", .vStr "None"]]⟩
    (by rfl) 1 (by decide) 0 (by decide)

theorem backfill_step_mem (d : DF) (c x : String) (h : x ∈ d.cols) :
    x ∈ (if c ∈ d.cols then d else setColumnConst d c (.vStr "")).cols := by
  split
  · exact h
  · rw [setColumnConst_new_cols d c _ (by assumption)]
    exact List.mem_append_left _ h

theorem backfill_step_self (d : DF) (c : String) :
    c ∈ (if c ∈ d.cols then d else setColumnConst d c (.vStr "")).cols := by
  split
  · assumption
  · rw [setColumnConst_new_cols d c _ (by assumption)]
    simp

theorem backfill_foldl_mem_mono (L : List String) (d : DF) (x : String)
    (h : x ∈ d.cols) :
    x ∈ (L.foldl
      (fun d c => if c ∈ d.cols then d else setColumnConst d c (.vStr "")) d).cols := by
  induction L generalizing d with
  | nil => exact h
  | cons y ys ih =>
    rw [List.foldl_cons]
    exact ih _ (backfill_step_mem d y x h)

theorem backfill_foldl_mem (L : List String) (d : DF) (c : String)
    (hc : c ∈ L) :
    c ∈ (L.foldl
      (fun d c => if c ∈ d.cols then d else setColumnConst d c (.vStr "")) d).cols := by
  induction L generalizing d with
  | nil => cases hc
  | cons y ys ih =>
    rw [List.foldl_cons]
    rcases List.mem_cons.mp hc with rfl | hc'
    · exact backfill_foldl_mem_mono ys _ c (backfill_step_self d c)
    · exact ih _ hc'

theorem backfillItems_mem (d : DF) (c : String) (hc : c ∈ itemsNeededCols) :
    c ∈ (backfillItems d).cols :=
  backfill_foldl_mem itemsNeededCols d c hc

/-- C7 counterexample: the timeline loader does not create missing display
columns — a source table holding only a `status` column loads as a
one-column grid (no "Item", "Activity", ... backfill) — and a source table
with no `status` column makes the loader raise instead of degrading. -/
theorem loader_missing_columns_cex :
    load_timeline_data ⟨["status"], [[.vStr "Done"]]⟩
      = .ok ⟨["Status"], [[.vStr "Done"]]⟩
    ∧ load_timeline_data ⟨["activity"], [[.vStr "x"]]⟩
      = .error (.keyError "Status") :=
  ⟨rfl, rfl⟩

/-- C7 amended: per-cell coercion never fails — whenever the loader's
required columns are present after normalization, loading succeeds for
every cell contents, with failed coercions degrading to defaults (an
unparsable date becomes null, an unparsable quantity becomes 0); the Items
display pipeline (not the loaders) backfills its expected display columns;
but the loaders raise when a required column is absent. -/
theorem loader_total_and_backfilled (raw rawI : DF)
    (hwf : raw.WF) (hwfI : rawI.WF)
    (hs : "Status" ∈ (normalizeDF timelineMapping raw).cols)
    (hI : "Item" ∈ (normalizeDF itemsMapping rawI).cols)
    (hQ : "Quantity" ∈ (normalizeDF itemsMapping rawI).cols)
    (hO : "Order Status" ∈ (normalizeDF itemsMapping rawI).cols)
    (hD : "Delivery Status" ∈ (normalizeDF itemsMapping rawI).cols)
    (hN : "Notes" ∈ (normalizeDF itemsMapping rawI).cols)
    (c : String) (hc : c ∈ itemsNeededCols) :
    (∃ df, load_timeline_data raw = .ok df)
    ∧ (∃ df, load_items_data rawI = .ok df)
    ∧ (∃ df, itemsDisplayPipeline rawI = .ok df ∧ c ∈ df.cols)
    ∧ pyToDatetime (.vStr "garbage") = .vNull
    ∧ quantityCoerce (.vStr "garbage") = .vInt 0 := by
  obtain ⟨df1, hok1, _, _, _, _⟩ := load_timeline_trace raw hwf hs
  obtain ⟨df2, hok2, hcols2, _, _, _⟩ :=
    load_items_trace rawI hwfI hI hQ hO hD hN
  refine ⟨⟨df1, hok1⟩, ⟨df2, hok2⟩, ?_, by rfl, by rfl⟩
  have hpipe : itemsDisplayPipeline rawI
      = .ok (mapColumn (mapColumn (mapColumn (mapColumn (mapColumn
          (backfillItems df2) "Item" pyAstypeStr) "Quantity" quantityCoerce)
          "Order Status" pyAstypeStr) "Delivery Status" pyAstypeStr)
          "Notes" pyAstypeStr) := by
    simp only [itemsDisplayPipeline, hok2]
    rfl
  refine ⟨_, hpipe, ?_⟩
  simp only [mapColumn_cols]
  exact backfillItems_mem df2 c hc

/-- Witness for C7 amended at concrete one-row tables. -/
theorem loader_total_and_backfilled_witness :
    (∃ df, load_timeline_data ⟨["status"], [[.vStr "Done"]]⟩ = .ok df)
    ∧ (∃ df, load_items_data
        ⟨["item", "quantity", "order_status", "delivery_status", "notes"],
          [[.vNull, .vStr "oops", .vNull, .vNull, .vNull]]⟩ = .ok df)
    ∧ (∃ df, itemsDisplayPipeline
        ⟨["item", "quantity", "order_status", "delivery_status", "notes"],
          [[.vNull, .vStr "oops", .vNull, .vNull, .vNull]]⟩ = .ok df
        ∧ "Item" ∈ df.cols)
    ∧ pyToDatetime (.vStr "garbage") = .vNull
    ∧ quantityCoerce (.vStr "garbage") = .vInt 0 :=
  loader_total_and_backfilled ⟨["status"], [[.vStr "Done"]]⟩
    ⟨["item", "quantity", "order_status", "delivery_status", "notes"],
      [[.vNull, .vStr "oops", .vNull, .vNull, .vNull]]⟩
    (by decide) (by decide) (by decide) (by decide) (by decide) (by decide)
    (by decide) (by decide) "Item" (by decide)

/-- C2 counterexample: the round trip is not total over grids.  The editor
lets the user delete the Status column and persist; reloading the saved
one-column timeline grid then raises (KeyError on "Status") instead of
yielding a grid at all. -/
theorem round_trip_cex :
    load_timeline_data
        (save_timeline_write ⟨⟨[], []⟩, ⟨[], []⟩⟩
          ⟨["Activity"], [[.vStr "demo"]]⟩).timeline
      = .error (.keyError "Status") :=
  rfl

/-- C2 amended: for grids whose column names survive the loader's
normalization unchanged and which retain the loader's required columns
(Status for the timeline; the five display columns for items), saving and
reloading yields a grid with the same row count, the same column set, and
every cell equal to the loader's declared coercion of the saved cell. -/
theorem round_trip_coerced (st : Store) (g gi : DF)
    (hgwf : g.WF) (hgnd : g.cols.Nodup)
    (hgfix : normFixed timelineMapping g.cols)
    (hs : "Status" ∈ g.cols)
    (hiwf : gi.WF) (hind : gi.cols.Nodup)
    (hifix : normFixed itemsMapping gi.cols)
    (hI : "Item" ∈ gi.cols) (hQ : "Quantity" ∈ gi.cols)
    (hO : "Order Status" ∈ gi.cols) (hD : "Delivery Status" ∈ gi.cols)
    (hN : "Notes" ∈ gi.cols)
    (k i k2 i2 : Nat) (hk : k < g.rows.length) (hci : i < g.cols.length)
    (hk2 : k2 < gi.rows.length) (hci2 : i2 < gi.cols.length) :
    (∃ df, load_timeline_data (save_timeline_write st g).timeline = .ok df
      ∧ df.cols = g.cols ∧ df.rows.length = g.rows.length
      ∧ nthVal (nthRow df k) i
          = timelineCellCoerce (g.cols.getD i "") (nthVal (nthRow g k) i))
    ∧ (∃ df, load_items_data (save_items_write st gi).items = .ok df
      ∧ df.cols = gi.cols ∧ df.rows.length = gi.rows.length
      ∧ nthVal (nthRow df k2) i2
          = itemsCellCoerce (gi.cols.getD i2 "") (nthVal (nthRow gi k2) i2)) := by
  constructor
  · have hng : normalizeDF timelineMapping g = g := normalizeDF_of_fixed _ _ hgfix
    obtain ⟨df, hok, hcols, hlen, hwf', hcell⟩ :=
      load_timeline_trace g hgwf (by rw [hng]; exact hs)
    rw [hng] at hcols hcell
    refine ⟨df, hok, hcols, hlen, ?_⟩
    rw [hcell k i hk]
    exact timelineCellFix_eq g.cols i hgnd hci _
  · have hng : normalizeDF itemsMapping gi = gi := normalizeDF_of_fixed _ _ hifix
    obtain ⟨df, hok, hcols, hlen, hwf', hcell⟩ :=
      load_items_trace gi hiwf (by rw [hng]; exact hI) (by rw [hng]; exact hQ)
        (by rw [hng]; exact hO) (by rw [hng]; exact hD) (by rw [hng]; exact hN)
    rw [hng] at hcols hcell
    refine ⟨df, hok, hcols, hlen, ?_⟩
    rw [hcell k2 i2 hk2]
    exact itemsCellFix_eq gi.cols i2 hind hci2 _

/-- Witness for C2 amended at concrete one-row grids. -/
theorem round_trip_coerced_witness :
    (∃ df, load_timeline_data
        (save_timeline_write ⟨⟨[], []⟩, ⟨[], []⟩⟩
          ⟨["Status", "Progress"], [[.vStr "Done", .vInt 5]]⟩).timeline = .ok df
      ∧ df.cols = (⟨["Status", "Progress"], [[.vStr "Done", .vInt 5]]⟩ : DF).cols
      ∧ df.rows.length
          = (⟨["Status", "Progress"], [[.vStr "Done", .vInt 5]]⟩ : DF).rows.length
      ∧ nthVal (nthRow df 0) 0
          = timelineCellCoerce
              ((⟨["Status", "Progress"], [[.vStr "Done", .vInt 5]]⟩ : DF).cols.getD 0 "")
              (nthVal (nthRow (⟨["Status", "Progress"], [[.vStr "Done", .vInt 5]]⟩ : DF) 0) 0))
    ∧ (∃ df, load_items_data
        (save_items_write ⟨⟨[], []⟩, ⟨[], []⟩⟩
          ⟨["Item", "Quantity", "Order Status", "Delivery Status", "Notes"],
            [[.vStr "Nails", .vInt 3, .vStr "Ordered", .vStr "Delayed", .vStr ""]]⟩).items
          = .ok df
      ∧ df.cols = (⟨["Item", "Quantity", "Order Status", "Delivery Status", "Notes"],
            [[.vStr "Nails", .vInt 3, .vStr "Ordered", .vStr "Delayed", .vStr ""]]⟩ : DF).cols
      ∧ df.rows.length
          = (⟨["Item", "Quantity", "Order Status", "Delivery Status", "Notes"],
            [[.vStr "Nails", .vInt 3, .vStr "Ordered", .vStr "Delayed", .vStr ""]]⟩ : DF).rows.length
      ∧ nthVal (nthRow df 0) 1
          = itemsCellCoerce
              ((⟨["Item", "Quantity", "Order Status", "Delivery Status", "Notes"],
                [[.vStr "Nails", .vInt 3, .vStr "Ordered", .vStr "Delayed", .vStr ""]]⟩ : DF).cols.getD 1 "")
              (nthVal (nthRow (⟨["Item", "Quantity", "Order Status", "Delivery Status", "Notes"],
                [[.vStr "Nails", .vInt 3, .vStr "Ordered", .vStr "Delayed", .vStr ""]]⟩ : DF) 0) 1)) :=
  round_trip_coerced ⟨⟨[], []⟩, ⟨[], []⟩⟩
    ⟨["Status", "Progress"], [[.vStr "Done", .vInt 5]]⟩
    ⟨["Item", "Quantity", "Order Status", "Delivery Status", "Notes"],
      [[.vStr "Nails", .vInt 3, .vStr "Ordered", .vStr "Delayed", .vStr ""]]⟩
    (by decide) (by decide) (by decide) (by decide)
    (by decide) (by decide) (by decide)
    (by decide) (by decide) (by decide) (by decide) (by decide)
    0 0 0 1 (by decide) (by decide) (by decide) (by decide)

/-- C9: the CSV download is pure with respect to storage — it changes
neither the database stores nor the grid — and (for grids whose rendered
fields embed no newline) its output parses back into exactly one header
record holding the grid's column names in grid order, followed by one
record per item row in grid order (the trailing empty record is the final
newline). -/
theorem export_csv_pure_header_rows (st : Store) (grid : DF)
    (h : ∀ l ∈ toCsvLines grid, ∀ c ∈ l.data, c ≠ '\n') :
    (downloadItemsCsv st grid).1 = st
    ∧ (downloadItemsCsv st grid).2.1 = grid
    ∧ csvRecords (downloadItemsCsv st grid).2.2
      = csvLine grid.cols
          :: (grid.rows.map (fun r => csvLine (r.map renderCell)) ++ [""]) := by
  refine ⟨rfl, rfl, ?_⟩
  have h2 : (downloadItemsCsv st grid).2.2 = toCsv grid := rfl
  rw [h2, toCsv_eq_joinLinesNl, csvRecords_joinLinesNl _ h]
  rfl

/-- Witness for C9 at the two-row items grid of the spec's export
scenario. -/
theorem export_csv_pure_header_rows_witness :
    (downloadItemsCsv ⟨⟨[], []⟩, ⟨[], []⟩⟩
        ⟨["Item", "Quantity", "Order Status", "Delivery Status", "Notes"],
          [[.vStr "Cement", .vInt 10, .vStr "Ordered", .vStr "Delivered", .vStr ""],
           [.vStr "Nails", .vInt 0, .vStr "Not Ordered", .vStr "Not Delivered",
            .vStr "urgent"]]⟩).1 = ⟨⟨[], []⟩, ⟨[], []⟩⟩
    ∧ (downloadItemsCsv ⟨⟨[], []⟩, ⟨[], []⟩⟩
        ⟨["Item", "Quantity", "Order Status", "Delivery Status", "Notes"],
          [[.vStr "Cement", .vInt 10, .vStr "Ordered", .vStr "Delivered", .vStr ""],
           [.vStr "Nails", .vInt 0, .vStr "Not Ordered", .vStr "Not Delivered",
            .vStr "urgent"]]⟩).2.1
      = ⟨["Item", "Quantity", "Order Status", "Delivery Status", "Notes"],
          [[.vStr "Cement", .vInt 10, .vStr "Ordered", .vStr "Delivered", .vStr ""],
           [.vStr "Nails", .vInt 0, .vStr "Not Ordered", .vStr "Not Delivered",
            .vStr "urgent"]]⟩
    ∧ csvRecords (downloadItemsCsv ⟨⟨[], []⟩, ⟨[], []⟩⟩
        ⟨["Item", "Quantity", "Order Status", "Delivery Status", "Notes"],
          [[.vStr "Cement", .vInt 10, .vStr "Ordered", .vStr "Delivered", .vStr ""],
           [.vStr "Nails", .vInt 0, .vStr "Not Ordered", .vStr "Not Delivered",
            .vStr "urgent"]]⟩).2.2
      = csvLine ["Item", "Quantity", "Order Status", "Delivery Status", "Notes"]
          :: (([[Value.vStr "Cement", .vInt 10, .vStr "Ordered", .vStr "Delivered", .vStr ""],
               [Value.vStr "Nails", .vInt 0, .vStr "Not Ordered", .vStr "Not Delivered",
                .vStr "urgent"]] : List (List Value)).map
              (fun r => csvLine (r.map renderCell)) ++ [""]) :=
  export_csv_pure_header_rows ⟨⟨[], []⟩, ⟨[], []⟩⟩
    ⟨["Item", "Quantity", "Order Status", "Delivery Status", "Notes"],
      [[.vStr "Cement", .vInt 10, .vStr "Ordered", .vStr "Delivered", .vStr ""],
       [.vStr "Nails", .vInt 0, .vStr "Not Ordered", .vStr "Not Delivered",
        .vStr "urgent"]]⟩
    (by decide)

/-- The spec's export scenario, evaluated: the header and the second data
record come out exactly as the spec claims. -/
theorem export_csv_example_eval :
    csvRecords (toCsv
        ⟨["Item", "Quantity", "Order Status", "Delivery Status", "Notes"],
          [[.vStr "Cement", .vInt 10, .vStr "Ordered", .vStr "Delivered", .vStr ""],
           [.vStr "Nails", .vInt 0, .vStr "Not Ordered", .vStr "Not Delivered",
            .vStr "urgent"]]⟩)
      = ["Item,Quantity,Order Status,Delivery Status,Notes",
         "Cement,10,Ordered,Delivered,",
         "Nails,0,Not Ordered,Not Delivered,urgent", ""] := by
  rfl

end App
